import Mathlib

/-!
Shallow embedding of the three Playwright verification scripts of the
TRIANGLE repository (`src/verification/verify_app.py`,
`src/verification/verify_autopilot.py`, `src/verification/verify_refactor.py`).

Each script is a linear sequence of browser-automation calls wrapped in a
`try/except/finally` block.  The external world (browser, network, target
page, filesystem) is modelled by an `Env` that assigns to each fallible
library call its outcome: `none` means the call succeeds, `some msg` means
it raises a Python exception whose message is `msg`.  For the readiness
wait, the environment instead gives the time (in milliseconds) at which the
selector becomes available, or `none` if it never does; the call succeeds
iff that time is within the effective timeout.

A run of a script is a pure function `Env → Option String × List Event`:
the first component is an exception escaping the script's run function
(`none` when it returns normally), the second the ordered trace of observable
effects (library calls attempted, console lines printed, files written,
the final `browser.close`).
-/

/-- Outcomes of the external library calls a run performs.  `launch`,
`newPage`, `goto`, `click` and `screenshot` fail by raising an exception
with the given message; `selectorAppears` gives the time at which a selector
reaches its required state, or `none` if it never does. -/
structure Env where
  launch : Option String
  newPage : Option String
  goto : String → Option String
  selectorAppears : String → Option Nat
  click : String → Option String
  screenshot : String → Option String

/-- Observable effects of a run, in order.  Library calls are recorded when
attempted, with the arguments the script passes (`waitSelector` records the
script's explicit timeout argument, or `none` when the script passes no
timeout, and likewise the explicit `state` argument; `screenshot` records
the `full_page` flag, which every script leaves at the library default
`false`).  `fileWrite p` is recorded when a screenshot call succeeds: the
library writes the image at `p`, replacing any existing file there. -/
inductive Event where
  | launch
  | newPage
  | goto (url : String)
  | waitSelector (sel : String) (timeoutArg : Option Nat) (stateArg : Option String)
  | click (sel : String)
  | sleep (ms : Nat)
  | screenshot (path : String) (fullPage : Bool)
  | fileWrite (path : String)
  | printLine (line : String)
  | close
  deriving Repr, DecidableEq

/-- Playwright's default timeout for `wait_for_selector`, used when the
script passes no explicit `timeout` argument (30 seconds). -/
def defaultWaitTimeout : Nat := 30000

/-- Message of the `TimeoutError` raised when `wait_for_selector` times out. -/
def timeoutMessage (ms : Nat) : String :=
  "Timeout " ++ toString ms ++ "ms exceeded."

/-- Semantics of `page.wait_for_selector(sel, timeout=...)`: block until the
selector is available, bounded by the explicit timeout if one is passed and
by the library default otherwise; return `none` on success and the timeout
error on failure. -/
def wait_for_selector (env : Env) (sel : String) (timeoutArg : Option Nat) :
    Option String :=
  let eff := timeoutArg.getD defaultWaitTimeout
  match env.selectorAppears sel with
  | some t => if t ≤ eff then none else some (timeoutMessage eff)
  | none => some (timeoutMessage eff)

/-- Console lines printed during a trace, in order. -/
def prints (tr : List Event) : List String :=
  tr.filterMap fun e =>
    match e with
    | Event.printLine s => some s
    | _ => none

/-- Filesystem paths written during a trace, in order. -/
def writes (tr : List Event) : List String :=
  tr.filterMap fun e =>
    match e with
    | Event.fileWrite p => some p
    | _ => none

/-- Number of `browser.close` calls in a trace. -/
def closeCount (tr : List Event) : Nat :=
  tr.count Event.close

/-- The explicit-timeout arguments of the `wait_for_selector` calls in a
trace (`none` for a call made without a `timeout` argument). -/
def waitTimeoutArgs (tr : List Event) : List (Option Nat) :=
  tr.filterMap fun e =>
    match e with
    | Event.waitSelector _ t _ => some t
    | _ => none

/-- Durations of the `wait_for_timeout` (settle) calls in a trace. -/
def sleeps (tr : List Event) : List Nat :=
  tr.filterMap fun e =>
    match e with
    | Event.sleep ms => some ms
    | _ => none

/-- The `(path, full_page)` arguments of the screenshot calls in a trace. -/
def screenshotCalls (tr : List Event) : List (String × Bool) :=
  tr.filterMap fun e =>
    match e with
    | Event.screenshot p fp => some (p, fp)
    | _ => none

/-- Whether the list `p` occurs contiguously inside `l`. -/
def infixOfCL (p : List Char) : List Char → Bool
  | [] => p.isPrefixOf []
  | c :: t => p.isPrefixOf (c :: t) || infixOfCL p t

/-- Whether the string `p` occurs inside `s`. -/
def includesText (p s : String) : Bool :=
  infixOfCL p.data s.data

/-- The characters of the fixed error-line head `"Error: "` produced by the
scripts' `print(f"Error: \x7be\x7d")`. -/
def errHead : List Char := ['E', 'r', 'r', 'o', 'r', ':', ' ']

/-- Whether a console line is an error line, i.e. starts with `"Error: "`. -/
def isErrorLine (s : String) : Bool :=
  errHead.isPrefixOf s.data

/-- Whether a console line is one of the two terminal lines of a run: the
given success confirmation, or an error line. -/
def isTerminalLine (success s : String) : Bool :=
  s == success || isErrorLine s

/-- The terminal lines among a list of console lines. -/
def terminalLines (success : String) (ls : List String) : List String :=
  ls.filter (isTerminalLine success)

namespace VerifyApp

/-- Target URL of `verify_app.py`. -/
def url : String := "http://localhost:5173"

/-- Readiness selector of `verify_app.py`. -/
def readySelector : String := "#canvas-container canvas"

/-- Screenshot output path of `verify_app.py`. -/
def outputPath : String := "verification/app_screenshot.png"

/-- Success confirmation line of `verify_app.py`. -/
def successLine : String := "Screenshot taken successfully"

/-- The `try` block body of `verify_app.py`:
`page.goto(url)`, `page.wait_for_selector("#canvas-container canvas",
timeout=10000)`, `page.screenshot(path="verification/app_screenshot.png")`,
`print("Screenshot taken successfully")`.  Returns the exception escaping
the block (if any) and the effect trace of the block. -/
def tryBody (env : Env) : Option String × List Event :=
  match env.goto url with
  | some e => (some e, [Event.goto url])
  | none =>
    match wait_for_selector env readySelector (some 10000) with
    | some e =>
      (some e, [Event.goto url, Event.waitSelector readySelector (some 10000) none])
    | none =>
      match env.screenshot outputPath with
      | some e =>
        (some e, [Event.goto url, Event.waitSelector readySelector (some 10000) none,
          Event.screenshot outputPath false])
      | none =>
        (none, [Event.goto url, Event.waitSelector readySelector (some 10000) none,
          Event.screenshot outputPath false, Event.fileWrite outputPath,
          Event.printLine successLine])

/-- `verify_app()` of `verify_app.py`: launch the browser, open a page, then
run the `try` block; an exception in the block is caught and printed as
`Error: <message>`, and `finally: browser.close()` runs whenever the `try`
statement was reached.  `launch` and `new_page` sit outside the `try`, so
their exceptions propagate to the caller without reaching the `finally`. -/
def verify_app (env : Env) : Option String × List Event :=
  match env.launch with
  | some e => (some e, [Event.launch])
  | none =>
    match env.newPage with
    | some e => (some e, [Event.launch, Event.newPage])
    | none =>
      let body := tryBody env
      match body.1 with
      | none => (none, [Event.launch, Event.newPage] ++ body.2 ++ [Event.close])
      | some e =>
        (none, [Event.launch, Event.newPage] ++ body.2 ++
          [Event.printLine ("Error: " ++ e), Event.close])

end VerifyApp

namespace VerifyAutopilot

/-- Target URL of `verify_autopilot.py`. -/
def url : String := "http://localhost:8000"

/-- Readiness selector of `verify_autopilot.py`. -/
def readySelector : String := "#canvas-container canvas"

/-- Click target of `verify_autopilot.py`. -/
def clickTarget : String := "#start-overlay"

/-- Screenshot output path of `verify_autopilot.py`. -/
def outputPath : String := "verification/autopilot_active.png"

/-- Success confirmation line of `verify_autopilot.py`. -/
def successLine : String := "Screenshot saved."

/-- The `try` block body of `verify_autopilot.py`: progress prints
interleaved with `goto`, `wait_for_selector(..., timeout=5000)`,
`click("#start-overlay")`, `wait_for_timeout(3000)`, `screenshot`, and the
final success print. -/
def tryBody (env : Env) : Option String × List Event :=
  match env.goto url with
  | some e => (some e, [Event.printLine "Navigating to app...", Event.goto url])
  | none =>
    match wait_for_selector env readySelector (some 5000) with
    | some e =>
      (some e, [Event.printLine "Navigating to app...", Event.goto url,
        Event.waitSelector readySelector (some 5000) none])
    | none =>
      match env.click clickTarget with
      | some e =>
        (some e, [Event.printLine "Navigating to app...", Event.goto url,
          Event.waitSelector readySelector (some 5000) none,
          Event.printLine "Clicking start overlay...", Event.click clickTarget])
      | none =>
        match env.screenshot outputPath with
        | some e =>
          (some e, [Event.printLine "Navigating to app...", Event.goto url,
            Event.waitSelector readySelector (some 5000) none,
            Event.printLine "Clicking start overlay...", Event.click clickTarget,
            Event.printLine "Waiting for autopilot...", Event.sleep 3000,
            Event.printLine "Taking screenshot...",
            Event.screenshot outputPath false])
        | none =>
          (none, [Event.printLine "Navigating to app...", Event.goto url,
            Event.waitSelector readySelector (some 5000) none,
            Event.printLine "Clicking start overlay...", Event.click clickTarget,
            Event.printLine "Waiting for autopilot...", Event.sleep 3000,
            Event.printLine "Taking screenshot...",
            Event.screenshot outputPath false, Event.fileWrite outputPath,
            Event.printLine successLine])

/-- `verify_app()` of `verify_autopilot.py`: same shape as `verify_app.py`,
with the click and the 3000 ms settle wait inside the `try` block. -/
def verify_app (env : Env) : Option String × List Event :=
  match env.launch with
  | some e => (some e, [Event.launch])
  | none =>
    match env.newPage with
    | some e => (some e, [Event.launch, Event.newPage])
    | none =>
      let body := tryBody env
      match body.1 with
      | none => (none, [Event.launch, Event.newPage] ++ body.2 ++ [Event.close])
      | some e =>
        (none, [Event.launch, Event.newPage] ++ body.2 ++
          [Event.printLine ("Error: " ++ e), Event.close])

end VerifyAutopilot

namespace VerifyRefactor

/-- Target URL of `verify_refactor.py`. -/
def url : String := "http://localhost:8080"

/-- Readiness selector of `verify_refactor.py`. -/
def readySelector : String := "canvas"

/-- Screenshot output path of `verify_refactor.py`. -/
def outputPath : String := "verification/app_running.png"

/-- Success confirmation line of `verify_refactor.py`. -/
def successLine : String := "Screenshot taken: verification/app_running.png"

/-- The `try` block body of `verify_refactor.py`: `goto`,
`wait_for_selector("canvas", state="visible")` with no explicit timeout,
`wait_for_timeout(2000)`, `screenshot`, success print. -/
def tryBody (env : Env) : Option String × List Event :=
  match env.goto url with
  | some e => (some e, [Event.goto url])
  | none =>
    match wait_for_selector env readySelector none with
    | some e =>
      (some e, [Event.goto url,
        Event.waitSelector readySelector none (some "visible")])
    | none =>
      match env.screenshot outputPath with
      | some e =>
        (some e, [Event.goto url,
          Event.waitSelector readySelector none (some "visible"),
          Event.sleep 2000, Event.screenshot outputPath false])
      | none =>
        (none, [Event.goto url,
          Event.waitSelector readySelector none (some "visible"),
          Event.sleep 2000, Event.screenshot outputPath false,
          Event.fileWrite outputPath, Event.printLine successLine])

/-- `verify_app_loads()` of `verify_refactor.py`: same shape as
`verify_app.py`, with a 2000 ms settle wait before the screenshot. -/
def verify_app_loads (env : Env) : Option String × List Event :=
  match env.launch with
  | some e => (some e, [Event.launch])
  | none =>
    match env.newPage with
    | some e => (some e, [Event.launch, Event.newPage])
    | none =>
      let body := tryBody env
      match body.1 with
      | none => (none, [Event.launch, Event.newPage] ++ body.2 ++ [Event.close])
      | some e =>
        (none, [Event.launch, Event.newPage] ++ body.2 ++
          [Event.printLine ("Error: " ++ e), Event.close])

end VerifyRefactor

/-- An environment in which every external call succeeds and every selector
is available immediately. -/
def envOk : Env where
  launch := none
  newPage := none
  goto := fun _ => none
  selectorAppears := fun _ => some 0
  click := fun _ => none
  screenshot := fun _ => none

/-- `envOk` except that `browser.new_page()` raises. -/
def envNewPageFail : Env := { envOk with newPage := some "new page failed" }

/-- `envOk` except that `page.goto` raises a connection error. -/
def envGotoFail : Env :=
  { envOk with goto := fun _ => some "net::ERR_CONNECTION_REFUSED" }

/-- `envOk` except that no selector ever appears: every readiness wait
times out. -/
def envNoSelector : Env := { envOk with selectorAppears := fun _ => none }

/-- `envOk` except that the screenshot write raises. -/
def envShotFail : Env :=
  { envOk with screenshot := fun _ => some "EACCES: permission denied" }

namespace VerifyApp

/-- Every step of `verify_app.py` preceding its screenshot call succeeds:
launch, page open, navigation and the readiness wait. -/
def preOk (env : Env) : Bool :=
  env.launch.isNone && env.newPage.isNone && (env.goto url).isNone &&
    (wait_for_selector env readySelector (some 10000)).isNone

/-- Every step inside the `try` block of `verify_app.py` succeeds, up to
and including the screenshot call. -/
def stepsOk (env : Env) : Bool :=
  (env.goto url).isNone && (wait_for_selector env readySelector (some 10000)).isNone &&
    (env.screenshot outputPath).isNone

end VerifyApp

namespace VerifyAutopilot

/-- Every step of `verify_autopilot.py` preceding its screenshot call
succeeds: launch, page open, navigation, the readiness wait and the click. -/
def preOk (env : Env) : Bool :=
  env.launch.isNone && env.newPage.isNone && (env.goto url).isNone &&
    (wait_for_selector env readySelector (some 5000)).isNone &&
    (env.click clickTarget).isNone

/-- Every step inside the `try` block of `verify_autopilot.py` succeeds, up
to and including the screenshot call. -/
def stepsOk (env : Env) : Bool :=
  (env.goto url).isNone && (wait_for_selector env readySelector (some 5000)).isNone &&
    (env.click clickTarget).isNone && (env.screenshot outputPath).isNone

end VerifyAutopilot

namespace VerifyRefactor

/-- Every step of `verify_refactor.py` preceding its screenshot call
succeeds: launch, page open, navigation and the readiness wait. -/
def preOk (env : Env) : Bool :=
  env.launch.isNone && env.newPage.isNone && (env.goto url).isNone &&
    (wait_for_selector env readySelector none).isNone

/-- Every step inside the `try` block of `verify_refactor.py` succeeds, up
to and including the screenshot call. -/
def stepsOk (env : Env) : Bool :=
  (env.goto url).isNone && (wait_for_selector env readySelector none).isNone &&
    (env.screenshot outputPath).isNone

end VerifyRefactor

/-- A list is a prefix of itself followed by anything. -/
theorem isPrefixOf_self_append (l xs : List Char) : l.isPrefixOf (l ++ xs) = true := by
  induction l with
  | nil => cases xs <;> rfl
  | cons a t ih => simp [List.isPrefixOf, ih]

/-- Every line of the form `"Error: " ++ m` is an error line. -/
theorem isErrorLine_append (m : String) : isErrorLine ("Error: " ++ m) = true := by
  unfold isErrorLine
  rw [String.data_append]
  exact isPrefixOf_self_append errHead m.data

/-- Every line of the form `"Error: " ++ m` is a terminal line. -/
theorem isTerminalLine_error (success m : String) :
    isTerminalLine success ("Error: " ++ m) = true := by
  simp [isTerminalLine, isErrorLine_append]

example : (VerifyApp.verify_app envOk).1 = none := by decide
example : prints (VerifyApp.verify_app envOk).2 = ["Screenshot taken successfully"] := by decide
example : (VerifyApp.verify_app envNewPageFail).1 = some "new page failed" := by decide
example : closeCount (VerifyApp.verify_app envNewPageFail).2 = 0 := by decide
example : writes (VerifyAutopilot.verify_app envNoSelector).2 = [] := by decide
example : sleeps (VerifyRefactor.verify_app_loads envOk).2 = [2000] := by decide
example : waitTimeoutArgs (VerifyRefactor.verify_app_loads envOk).2 = [none] := by decide
example : prints (VerifyAutopilot.verify_app envNoSelector).2 =
    ["Navigating to app...", "Error: " ++ timeoutMessage 5000] := by decide

/-- Counterexample to C1: when `browser.new_page()` (step 2, opening the
page) raises, the exception escapes `verify_app` to the caller — it is not
caught and no `Error:` line is printed, because `new_page` sits outside the
`try` block. -/
theorem c1_counterexample :
    (VerifyApp.verify_app envNewPageFail).1 = some "new page failed" ∧
    Event.printLine ("Error: " ++ "new page failed") ∉
      (VerifyApp.verify_app envNewPageFail).2 := by
  decide

/-- C1 (amended): in each of the three scripts, once the page has been
opened, any failure in steps 3-7 (navigation, the readiness wait, the
optional click, the settle wait, the screenshot write) is caught inside the
run function, converted to a printed `Error: <message>` line, and does not
propagate to the caller; a failure in step 2 (opening the page) itself,
however, propagates past the run function. -/
theorem c1_try_block_failures_caught (env : Env)
    (hl : env.launch = none) (hn : env.newPage = none) :
    (VerifyApp.verify_app env).1 = none ∧
    (VerifyAutopilot.verify_app env).1 = none ∧
    (VerifyRefactor.verify_app_loads env).1 = none ∧
    (∀ m, (VerifyApp.tryBody env).1 = some m →
      Event.printLine ("Error: " ++ m) ∈ (VerifyApp.verify_app env).2) ∧
    (∀ m, (VerifyAutopilot.tryBody env).1 = some m →
      Event.printLine ("Error: " ++ m) ∈ (VerifyAutopilot.verify_app env).2) ∧
    (∀ m, (VerifyRefactor.tryBody env).1 = some m →
      Event.printLine ("Error: " ++ m) ∈ (VerifyRefactor.verify_app_loads env).2) := by
  refine ⟨?_, ?_, ?_, ?_, ?_, ?_⟩
  · simp only [VerifyApp.verify_app, hl, hn]
    cases h : (VerifyApp.tryBody env).1 <;> simp [h]
  · simp only [VerifyAutopilot.verify_app, hl, hn]
    cases h : (VerifyAutopilot.tryBody env).1 <;> simp [h]
  · simp only [VerifyRefactor.verify_app_loads, hl, hn]
    cases h : (VerifyRefactor.tryBody env).1 <;> simp [h]
  · intro m h
    simp [VerifyApp.verify_app, hl, hn, h]
  · intro m h
    simp [VerifyAutopilot.verify_app, hl, hn, h]
  · intro m h
    simp [VerifyRefactor.verify_app_loads, hl, hn, h]

/-- Witness for C1: with a failing navigation, `verify_app` returns
normally and prints the error line. -/
theorem c1_witness :
    (VerifyApp.verify_app envGotoFail).1 = none ∧
    Event.printLine ("Error: " ++ "net::ERR_CONNECTION_REFUSED") ∈
      (VerifyApp.verify_app envGotoFail).2 := by
  have h := c1_try_block_failures_caught envGotoFail rfl rfl
  exact ⟨h.1, h.2.2.2.1 "net::ERR_CONNECTION_REFUSED" rfl⟩

/-- Counterexample to C2: when `browser.new_page()` raises, the browser
handle acquired in step 1 is never released — `browser.close()` runs zero
times, because the exception occurs before the `try`/`finally` statement is
reached. -/
theorem c2_counterexample :
    closeCount (VerifyApp.verify_app envNewPageFail).2 = 0 ∧
    (VerifyApp.verify_app envNewPageFail).1 = some "new page failed" := by
  decide

/-- No branch of the `try` block of `verify_app.py` closes the browser. -/
theorem VerifyApp.app_close_not_in_try (env : Env) :
    Event.close ∉ (VerifyApp.tryBody env).2 := by
  rcases hg : env.goto VerifyApp.url with _ | m
  · rcases hw : wait_for_selector env VerifyApp.readySelector (some 10000) with _ | e
    · rcases hs : env.screenshot VerifyApp.outputPath with _ | e2 <;>
        simp [VerifyApp.tryBody, hg, hw, hs]
    · simp [VerifyApp.tryBody, hg, hw]
  · simp [VerifyApp.tryBody, hg]

/-- No branch of the `try` block of `verify_autopilot.py` closes the
browser. -/
theorem VerifyAutopilot.autopilot_close_not_in_try (env : Env) :
    Event.close ∉ (VerifyAutopilot.tryBody env).2 := by
  rcases hg : env.goto VerifyAutopilot.url with _ | m
  · rcases hw : wait_for_selector env VerifyAutopilot.readySelector (some 5000) with _ | e
    · rcases hc : env.click VerifyAutopilot.clickTarget with _ | e1
      · rcases hs : env.screenshot VerifyAutopilot.outputPath with _ | e2 <;>
          simp [VerifyAutopilot.tryBody, hg, hw, hc, hs]
      · simp [VerifyAutopilot.tryBody, hg, hw, hc]
    · simp [VerifyAutopilot.tryBody, hg, hw]
  · simp [VerifyAutopilot.tryBody, hg]

/-- No branch of the `try` block of `verify_refactor.py` closes the
browser. -/
theorem VerifyRefactor.refactor_close_not_in_try (env : Env) :
    Event.close ∉ (VerifyRefactor.tryBody env).2 := by
  rcases hg : env.goto VerifyRefactor.url with _ | m
  · rcases hw : wait_for_selector env VerifyRefactor.readySelector none with _ | e
    · rcases hs : env.screenshot VerifyRefactor.outputPath with _ | e2 <;>
        simp [VerifyRefactor.tryBody, hg, hw, hs]
    · simp [VerifyRefactor.tryBody, hg, hw]
  · simp [VerifyRefactor.tryBody, hg]

/-- C2 (amended): in each of the three scripts, whenever the page open
(step 2) succeeds — so the `try`/`finally` statement is reached —
`browser.close()` is executed exactly once, as the final event of the run,
on both the normal and the caught-failure exit path; when `new_page` itself
fails the handle is not released (see the counterexample). -/
theorem c2_close_exactly_once (env : Env)
    (hl : env.launch = none) (hn : env.newPage = none) :
    closeCount (VerifyApp.verify_app env).2 = 1 ∧
    closeCount (VerifyAutopilot.verify_app env).2 = 1 ∧
    closeCount (VerifyRefactor.verify_app_loads env).2 = 1 ∧
    (VerifyApp.verify_app env).2.getLast? = some Event.close ∧
    (VerifyAutopilot.verify_app env).2.getLast? = some Event.close ∧
    (VerifyRefactor.verify_app_loads env).2.getLast? = some Event.close := by
  have hb1 := VerifyApp.app_close_not_in_try env
  have hb2 := VerifyAutopilot.autopilot_close_not_in_try env
  have hb3 := VerifyRefactor.refactor_close_not_in_try env
  rw [← List.count_eq_zero] at hb1 hb2 hb3
  refine ⟨?_, ?_, ?_, ?_, ?_, ?_⟩
  · simp only [VerifyApp.verify_app, hl, hn]
    cases h : (VerifyApp.tryBody env).1 <;>
      simp [closeCount, List.count_append, hb1]
  · simp only [VerifyAutopilot.verify_app, hl, hn]
    cases h : (VerifyAutopilot.tryBody env).1 <;>
      simp [closeCount, List.count_append, hb2]
  · simp only [VerifyRefactor.verify_app_loads, hl, hn]
    cases h : (VerifyRefactor.tryBody env).1 <;>
      simp [closeCount, List.count_append, hb3]
  · simp only [VerifyApp.verify_app, hl, hn]
    cases h : (VerifyApp.tryBody env).1 <;>
      · rw [List.getLast?_append_of_ne_nil] <;> simp
  · simp only [VerifyAutopilot.verify_app, hl, hn]
    cases h : (VerifyAutopilot.tryBody env).1 <;>
      · rw [List.getLast?_append_of_ne_nil] <;> simp
  · simp only [VerifyRefactor.verify_app_loads, hl, hn]
    cases h : (VerifyRefactor.tryBody env).1 <;>
      · rw [List.getLast?_append_of_ne_nil] <;> simp

/-- Witness for C2: on the failure path where no selector ever appears,
each of the three runs still closes the browser exactly once, as its last
event. -/
theorem c2_witness :
    closeCount (VerifyApp.verify_app envNoSelector).2 = 1 ∧
    closeCount (VerifyAutopilot.verify_app envNoSelector).2 = 1 ∧
    closeCount (VerifyRefactor.verify_app_loads envNoSelector).2 = 1 ∧
    (VerifyApp.verify_app envNoSelector).2.getLast? = some Event.close := by
  have h := c2_close_exactly_once envNoSelector rfl rfl
  exact ⟨h.1, h.2.1, h.2.2.1, h.2.2.2.1⟩

/-- Counterexample to C3: `verify_refactor.py` passes no explicit timeout to
its readiness wait — the recorded timeout argument is `none`, and the
effective bound is the library default of 30000 ms, which is not between
5000 and 10000 ms. -/
theorem c3_counterexample :
    waitTimeoutArgs (VerifyRefactor.verify_app_loads envOk).2 = [(none : Option Nat)] ∧
    ¬ (5000 ≤ defaultWaitTimeout ∧ defaultWaitTimeout ≤ 10000) := by
  decide

/-- C3 (amended): `verify_app.py` waits for its readiness selector with an
explicit 10000 ms timeout and `verify_autopilot.py` with an explicit
5000 ms timeout — both within 5-10 seconds — while `verify_refactor.py`
passes no explicit timeout and is bounded by the library default of
30000 ms; in every variant, if the selector never becomes available the
run takes the failure path: no file is written and the timeout error is
printed. -/
theorem c3_wait_timeouts (env : Env)
    (hl : env.launch = none) (hn : env.newPage = none) :
    (env.goto VerifyApp.url = none →
      waitTimeoutArgs (VerifyApp.verify_app env).2 = [some 10000]) ∧
    (env.goto VerifyAutopilot.url = none →
      waitTimeoutArgs (VerifyAutopilot.verify_app env).2 = [some 5000]) ∧
    (env.goto VerifyRefactor.url = none →
      waitTimeoutArgs (VerifyRefactor.verify_app_loads env).2 = [(none : Option Nat)]) ∧
    (env.goto VerifyApp.url = none →
      env.selectorAppears VerifyApp.readySelector = none →
      writes (VerifyApp.verify_app env).2 = [] ∧
      Event.printLine ("Error: " ++ timeoutMessage 10000) ∈ (VerifyApp.verify_app env).2) ∧
    (env.goto VerifyAutopilot.url = none →
      env.selectorAppears VerifyAutopilot.readySelector = none →
      writes (VerifyAutopilot.verify_app env).2 = [] ∧
      Event.printLine ("Error: " ++ timeoutMessage 5000) ∈ (VerifyAutopilot.verify_app env).2) ∧
    (env.goto VerifyRefactor.url = none →
      env.selectorAppears VerifyRefactor.readySelector = none →
      writes (VerifyRefactor.verify_app_loads env).2 = [] ∧
      Event.printLine ("Error: " ++ timeoutMessage defaultWaitTimeout) ∈
        (VerifyRefactor.verify_app_loads env).2) := by
  refine ⟨?_, ?_, ?_, ?_, ?_, ?_⟩
  · intro hg
    rcases hw : wait_for_selector env VerifyApp.readySelector (some 10000) with _ | e
    · rcases hs : env.screenshot VerifyApp.outputPath with _ | e2 <;>
        simp [VerifyApp.verify_app, VerifyApp.tryBody, waitTimeoutArgs, hl, hn, hg, hw, hs]
    · simp [VerifyApp.verify_app, VerifyApp.tryBody, waitTimeoutArgs, hl, hn, hg, hw]
  · intro hg
    rcases hw : wait_for_selector env VerifyAutopilot.readySelector (some 5000) with _ | e
    · rcases hc : env.click VerifyAutopilot.clickTarget with _ | e1
      · rcases hs : env.screenshot VerifyAutopilot.outputPath with _ | e2 <;>
          simp [VerifyAutopilot.verify_app, VerifyAutopilot.tryBody, waitTimeoutArgs,
            hl, hn, hg, hw, hc, hs]
      · simp [VerifyAutopilot.verify_app, VerifyAutopilot.tryBody, waitTimeoutArgs,
          hl, hn, hg, hw, hc]
    · simp [VerifyAutopilot.verify_app, VerifyAutopilot.tryBody, waitTimeoutArgs,
        hl, hn, hg, hw]
  · intro hg
    rcases hw : wait_for_selector env VerifyRefactor.readySelector none with _ | e
    · rcases hs : env.screenshot VerifyRefactor.outputPath with _ | e2 <;>
        simp [VerifyRefactor.verify_app_loads, VerifyRefactor.tryBody, waitTimeoutArgs,
          hl, hn, hg, hw, hs]
    · simp [VerifyRefactor.verify_app_loads, VerifyRefactor.tryBody, waitTimeoutArgs,
        hl, hn, hg, hw]
  · intro hg hsel
    have hw : wait_for_selector env VerifyApp.readySelector (some 10000) =
        some (timeoutMessage 10000) := by
      simp [wait_for_selector, hsel]
    simp [VerifyApp.verify_app, VerifyApp.tryBody, writes, hl, hn, hg, hw]
  · intro hg hsel
    have hw : wait_for_selector env VerifyAutopilot.readySelector (some 5000) =
        some (timeoutMessage 5000) := by
      simp [wait_for_selector, hsel]
    simp [VerifyAutopilot.verify_app, VerifyAutopilot.tryBody, writes, hl, hn, hg, hw]
  · intro hg hsel
    have hw : wait_for_selector env VerifyRefactor.readySelector none =
        some (timeoutMessage defaultWaitTimeout) := by
      simp [wait_for_selector, hsel]
    simp [VerifyRefactor.verify_app_loads, VerifyRefactor.tryBody, writes, hl, hn, hg, hw]

/-- Witness for C3: on an environment where every call succeeds, the
readiness waits of the three runs carry the timeout arguments
`some 10000`, `some 5000` and `none`; and on an environment where the
selector never appears, `verify_refactor` prints the default-timeout
error. -/
theorem c3_witness :
    waitTimeoutArgs (VerifyApp.verify_app envOk).2 = [some 10000] ∧
    waitTimeoutArgs (VerifyAutopilot.verify_app envOk).2 = [some 5000] ∧
    waitTimeoutArgs (VerifyRefactor.verify_app_loads envOk).2 = [(none : Option Nat)] ∧
    (writes (VerifyRefactor.verify_app_loads envNoSelector).2 = [] ∧
      Event.printLine ("Error: " ++ timeoutMessage defaultWaitTimeout) ∈
        (VerifyRefactor.verify_app_loads envNoSelector).2) := by
  have h1 := c3_wait_timeouts envOk rfl rfl
  have h2 := c3_wait_timeouts envNoSelector rfl rfl
  exact ⟨h1.1 rfl, h1.2.1 rfl, h1.2.2.1 rfl, h2.2.2.2.2.2 rfl rfl⟩

/-- Counterexample to C4: `verify_app.py` performs no settle wait at all —
a fully successful run (it writes its screenshot) contains no
`wait_for_timeout` call. -/
theorem c4_counterexample :
    sleeps (VerifyApp.verify_app envOk).2 = [] ∧
    writes (VerifyApp.verify_app envOk).2 = [VerifyApp.outputPath] := by
  decide

/-- C4 (amended): `verify_autopilot.py` performs an unconditional 3000 ms
settle wait after the click and `verify_refactor.py` an unconditional
2000 ms settle wait after readiness, both before the screenshot;
`verify_app.py` performs no settle wait: its runs never contain a
`wait_for_timeout` call. -/
theorem c4_settle_waits (env : Env)
    (hl : env.launch = none) (hn : env.newPage = none) :
    sleeps (VerifyApp.verify_app env).2 = [] ∧
    (env.goto VerifyAutopilot.url = none →
      wait_for_selector env VerifyAutopilot.readySelector (some 5000) = none →
      env.click VerifyAutopilot.clickTarget = none →
      sleeps (VerifyAutopilot.verify_app env).2 = [3000]) ∧
    (env.goto VerifyRefactor.url = none →
      wait_for_selector env VerifyRefactor.readySelector none = none →
      sleeps (VerifyRefactor.verify_app_loads env).2 = [2000]) := by
  refine ⟨?_, ?_, ?_⟩
  · rcases hg : env.goto VerifyApp.url with _ | m
    · rcases hw : wait_for_selector env VerifyApp.readySelector (some 10000) with _ | e
      · rcases hs : env.screenshot VerifyApp.outputPath with _ | e2 <;>
          simp [VerifyApp.verify_app, VerifyApp.tryBody, sleeps, hl, hn, hg, hw, hs]
      · simp [VerifyApp.verify_app, VerifyApp.tryBody, sleeps, hl, hn, hg, hw]
    · simp [VerifyApp.verify_app, VerifyApp.tryBody, sleeps, hl, hn, hg]
  · intro hg hw hc
    rcases hs : env.screenshot VerifyAutopilot.outputPath with _ | e2 <;>
      simp [VerifyAutopilot.verify_app, VerifyAutopilot.tryBody, sleeps,
        hl, hn, hg, hw, hc, hs]
  · intro hg hw
    rcases hs : env.screenshot VerifyRefactor.outputPath with _ | e2 <;>
      simp [VerifyRefactor.verify_app_loads, VerifyRefactor.tryBody, sleeps,
        hl, hn, hg, hw, hs]

/-- Witness for C4: on the all-success environment, the three runs perform
no settle wait, a 3000 ms settle wait, and a 2000 ms settle wait
respectively. -/
theorem c4_witness :
    sleeps (VerifyApp.verify_app envOk).2 = [] ∧
    sleeps (VerifyAutopilot.verify_app envOk).2 = [3000] ∧
    sleeps (VerifyRefactor.verify_app_loads envOk).2 = [2000] := by
  have h := c4_settle_waits envOk rfl rfl
  exact ⟨h.1, h.2.1 rfl (by decide) rfl, h.2.2 rfl (by decide)⟩

/-- Counterexample to C5: the screenshot call of a fully successful
`verify_app.py` run passes `full_page = false` (the scripts never set
`full_page=True`), so the capture is not a full-page screenshot. -/
theorem c5_counterexample :
    screenshotCalls (VerifyApp.verify_app envOk).2 = [(VerifyApp.outputPath, false)] := by
  decide

/-- C5 (amended): in every variant, the screenshot captured in step 7 is a
viewport screenshot (the `full_page` option is left at its default
`false`), written to the configured output path — the write replaces any
existing file at that path. -/
theorem c5_screenshot_viewport (env : Env)
    (hl : env.launch = none) (hn : env.newPage = none) :
    (env.goto VerifyApp.url = none →
      wait_for_selector env VerifyApp.readySelector (some 10000) = none →
      screenshotCalls (VerifyApp.verify_app env).2 = [(VerifyApp.outputPath, false)] ∧
      (env.screenshot VerifyApp.outputPath = none →
        writes (VerifyApp.verify_app env).2 = [VerifyApp.outputPath])) ∧
    (env.goto VerifyAutopilot.url = none →
      wait_for_selector env VerifyAutopilot.readySelector (some 5000) = none →
      env.click VerifyAutopilot.clickTarget = none →
      screenshotCalls (VerifyAutopilot.verify_app env).2 =
        [(VerifyAutopilot.outputPath, false)] ∧
      (env.screenshot VerifyAutopilot.outputPath = none →
        writes (VerifyAutopilot.verify_app env).2 = [VerifyAutopilot.outputPath])) ∧
    (env.goto VerifyRefactor.url = none →
      wait_for_selector env VerifyRefactor.readySelector none = none →
      screenshotCalls (VerifyRefactor.verify_app_loads env).2 =
        [(VerifyRefactor.outputPath, false)] ∧
      (env.screenshot VerifyRefactor.outputPath = none →
        writes (VerifyRefactor.verify_app_loads env).2 = [VerifyRefactor.outputPath])) := by
  refine ⟨?_, ?_, ?_⟩
  · intro hg hw
    rcases hs : env.screenshot VerifyApp.outputPath with _ | e2 <;>
      simp [VerifyApp.verify_app, VerifyApp.tryBody, screenshotCalls, writes,
        hl, hn, hg, hw, hs]
  · intro hg hw hc
    rcases hs : env.screenshot VerifyAutopilot.outputPath with _ | e2 <;>
      simp [VerifyAutopilot.verify_app, VerifyAutopilot.tryBody, screenshotCalls, writes,
        hl, hn, hg, hw, hc, hs]
  · intro hg hw
    rcases hs : env.screenshot VerifyRefactor.outputPath with _ | e2 <;>
      simp [VerifyRefactor.verify_app_loads, VerifyRefactor.tryBody, screenshotCalls, writes,
        hl, hn, hg, hw, hs]

/-- Witness for C5: on the all-success environment, each run performs
exactly one screenshot call, at its configured path, with
`full_page = false`, and writes exactly that path. -/
theorem c5_witness :
    (screenshotCalls (VerifyApp.verify_app envOk).2 = [(VerifyApp.outputPath, false)] ∧
      writes (VerifyApp.verify_app envOk).2 = [VerifyApp.outputPath]) ∧
    (screenshotCalls (VerifyAutopilot.verify_app envOk).2 =
        [(VerifyAutopilot.outputPath, false)] ∧
      writes (VerifyAutopilot.verify_app envOk).2 = [VerifyAutopilot.outputPath]) ∧
    (screenshotCalls (VerifyRefactor.verify_app_loads envOk).2 =
        [(VerifyRefactor.outputPath, false)] ∧
      writes (VerifyRefactor.verify_app_loads envOk).2 = [VerifyRefactor.outputPath]) := by
  have h := c5_screenshot_viewport envOk rfl rfl
  have h1 := h.1 rfl (by decide)
  have h2 := h.2.1 rfl (by decide) rfl
  have h3 := h.2.2 rfl (by decide)
  exact ⟨⟨h1.1, h1.2 rfl⟩, ⟨h2.1, h2.2 rfl⟩, ⟨h3.1, h3.2 rfl⟩⟩

/-- Counterexample to C6: a fully successful `verify_app.py` run reports
success with the single line `Screenshot taken successfully`, which does not
include the configured output path. -/
theorem c6_counterexample :
    prints (VerifyApp.verify_app envOk).2 = [VerifyApp.successLine] ∧
    includesText VerifyApp.outputPath VerifyApp.successLine = false := by
  decide

/-- C6 (amended): when all steps succeed, each run prints a fixed
confirmation line; only `verify_refactor.py`'s confirmation
(`Screenshot taken: verification/app_running.png`) includes the configured
output path — `verify_app.py` prints `Screenshot taken successfully` and
`verify_autopilot.py` prints `Screenshot saved.`, neither of which
includes it. -/
theorem c6_success_messages (env : Env)
    (hl : env.launch = none) (hn : env.newPage = none) :
    (env.goto VerifyApp.url = none →
      wait_for_selector env VerifyApp.readySelector (some 10000) = none →
      env.screenshot VerifyApp.outputPath = none →
      prints (VerifyApp.verify_app env).2 = [VerifyApp.successLine]) ∧
    (env.goto VerifyAutopilot.url = none →
      wait_for_selector env VerifyAutopilot.readySelector (some 5000) = none →
      env.click VerifyAutopilot.clickTarget = none →
      env.screenshot VerifyAutopilot.outputPath = none →
      prints (VerifyAutopilot.verify_app env).2 =
        ["Navigating to app...", "Clicking start overlay...",
         "Waiting for autopilot...", "Taking screenshot...",
         VerifyAutopilot.successLine]) ∧
    (env.goto VerifyRefactor.url = none →
      wait_for_selector env VerifyRefactor.readySelector none = none →
      env.screenshot VerifyRefactor.outputPath = none →
      prints (VerifyRefactor.verify_app_loads env).2 = [VerifyRefactor.successLine]) ∧
    includesText VerifyRefactor.outputPath VerifyRefactor.successLine = true ∧
    includesText VerifyApp.outputPath VerifyApp.successLine = false ∧
    includesText VerifyAutopilot.outputPath VerifyAutopilot.successLine = false := by
  refine ⟨?_, ?_, ?_, by decide, by decide, by decide⟩
  · intro hg hw hs
    simp [VerifyApp.verify_app, VerifyApp.tryBody, prints, hl, hn, hg, hw, hs]
  · intro hg hw hc hs
    simp [VerifyAutopilot.verify_app, VerifyAutopilot.tryBody, prints,
      hl, hn, hg, hw, hc, hs]
  · intro hg hw hs
    simp [VerifyRefactor.verify_app_loads, VerifyRefactor.tryBody, prints,
      hl, hn, hg, hw, hs]

/-- Witness for C6: on the all-success environment, `verify_refactor`'s
confirmation line includes its output path and the other two confirmation
lines do not. -/
theorem c6_witness :
    prints (VerifyApp.verify_app envOk).2 = [VerifyApp.successLine] ∧
    prints (VerifyRefactor.verify_app_loads envOk).2 = [VerifyRefactor.successLine] ∧
    includesText VerifyRefactor.outputPath VerifyRefactor.successLine = true ∧
    includesText VerifyApp.outputPath VerifyApp.successLine = false := by
  have h := c6_success_messages envOk rfl rfl
  exact ⟨h.1 rfl (by decide) rfl, h.2.2.1 rfl (by decide) rfl, h.2.2.2.1, h.2.2.2.2.1⟩

/-- C7: in every variant, when the readiness selector never appears within
the configured timeout, the run function returns normally (the timeout
exception does not escape), prints the timeout error line, and writes no
file. -/
theorem c7_timeout_no_crash (env : Env)
    (hl : env.launch = none) (hn : env.newPage = none)
    (hg : ∀ u, env.goto u = none)
    (hsel : ∀ s, env.selectorAppears s = none) :
    ((VerifyApp.verify_app env).1 = none ∧
      writes (VerifyApp.verify_app env).2 = [] ∧
      Event.printLine ("Error: " ++ timeoutMessage 10000) ∈ (VerifyApp.verify_app env).2) ∧
    ((VerifyAutopilot.verify_app env).1 = none ∧
      writes (VerifyAutopilot.verify_app env).2 = [] ∧
      Event.printLine ("Error: " ++ timeoutMessage 5000) ∈ (VerifyAutopilot.verify_app env).2) ∧
    ((VerifyRefactor.verify_app_loads env).1 = none ∧
      writes (VerifyRefactor.verify_app_loads env).2 = [] ∧
      Event.printLine ("Error: " ++ timeoutMessage defaultWaitTimeout) ∈
        (VerifyRefactor.verify_app_loads env).2) := by
  have hw1 : wait_for_selector env VerifyApp.readySelector (some 10000) =
      some (timeoutMessage 10000) := by
    simp [wait_for_selector, hsel]
  have hw2 : wait_for_selector env VerifyAutopilot.readySelector (some 5000) =
      some (timeoutMessage 5000) := by
    simp [wait_for_selector, hsel]
  have hw3 : wait_for_selector env VerifyRefactor.readySelector none =
      some (timeoutMessage defaultWaitTimeout) := by
    simp [wait_for_selector, hsel]
  refine ⟨⟨?_, ?_, ?_⟩, ⟨?_, ?_, ?_⟩, ⟨?_, ?_, ?_⟩⟩ <;>
    simp [VerifyApp.verify_app, VerifyApp.tryBody,
      VerifyAutopilot.verify_app, VerifyAutopilot.tryBody,
      VerifyRefactor.verify_app_loads, VerifyRefactor.tryBody,
      writes, hl, hn, hg, hw1, hw2, hw3]

/-- Witness for C7: with no server answering (every selector wait times
out), each run returns normally, writes nothing and prints its timeout
error. -/
theorem c7_witness :
    ((VerifyApp.verify_app envNoSelector).1 = none ∧
      writes (VerifyApp.verify_app envNoSelector).2 = [] ∧
      Event.printLine ("Error: " ++ timeoutMessage 10000) ∈
        (VerifyApp.verify_app envNoSelector).2) ∧
    ((VerifyAutopilot.verify_app envNoSelector).1 = none ∧
      writes (VerifyAutopilot.verify_app envNoSelector).2 = [] ∧
      Event.printLine ("Error: " ++ timeoutMessage 5000) ∈
        (VerifyAutopilot.verify_app envNoSelector).2) ∧
    ((VerifyRefactor.verify_app_loads envNoSelector).1 = none ∧
      writes (VerifyRefactor.verify_app_loads envNoSelector).2 = [] ∧
      Event.printLine ("Error: " ++ timeoutMessage defaultWaitTimeout) ∈
        (VerifyRefactor.verify_app_loads envNoSelector).2) :=
  c7_timeout_no_crash envNoSelector rfl rfl (fun _ => rfl) (fun _ => rfl)

/-- Counterexample to C8: the fully successful `verify_app.py` run goes
launch, page open, navigation, readiness wait, capture, close — the
capture follows the readiness wait directly, with no settle-wait step in
between, so the claimed step order (which places a settle wait before every
capture) does not hold for this script. -/
theorem c8_counterexample :
    (VerifyApp.verify_app envOk).2 =
      [Event.launch, Event.newPage, Event.goto VerifyApp.url,
       Event.waitSelector VerifyApp.readySelector (some 10000) none,
       Event.screenshot VerifyApp.outputPath false,
       Event.fileWrite VerifyApp.outputPath,
       Event.printLine VerifyApp.successLine, Event.close] := by
  decide

/-- C8 (amended): each script follows its linear order — launch, page open,
navigation, readiness wait, then in `verify_autopilot.py` a single click
and a 3000 ms settle, in `verify_refactor.py` a 2000 ms settle (and in
`verify_app.py` no settle), then capture, then close; a screenshot call
occurs only if the readiness wait succeeded; and failure of a step inside
the `try` block transitions directly to the error print and close, skipping
all remaining steps. -/
theorem c8_step_order (env : Env)
    (hl : env.launch = none) (hn : env.newPage = none) :
    (env.goto VerifyApp.url = none →
      wait_for_selector env VerifyApp.readySelector (some 10000) = none →
      env.screenshot VerifyApp.outputPath = none →
      (VerifyApp.verify_app env).2 =
        [Event.launch, Event.newPage, Event.goto VerifyApp.url,
         Event.waitSelector VerifyApp.readySelector (some 10000) none,
         Event.screenshot VerifyApp.outputPath false,
         Event.fileWrite VerifyApp.outputPath,
         Event.printLine VerifyApp.successLine, Event.close]) ∧
    (env.goto VerifyAutopilot.url = none →
      wait_for_selector env VerifyAutopilot.readySelector (some 5000) = none →
      env.click VerifyAutopilot.clickTarget = none →
      env.screenshot VerifyAutopilot.outputPath = none →
      (VerifyAutopilot.verify_app env).2 =
        [Event.launch, Event.newPage, Event.printLine "Navigating to app...",
         Event.goto VerifyAutopilot.url,
         Event.waitSelector VerifyAutopilot.readySelector (some 5000) none,
         Event.printLine "Clicking start overlay...",
         Event.click VerifyAutopilot.clickTarget,
         Event.printLine "Waiting for autopilot...", Event.sleep 3000,
         Event.printLine "Taking screenshot...",
         Event.screenshot VerifyAutopilot.outputPath false,
         Event.fileWrite VerifyAutopilot.outputPath,
         Event.printLine VerifyAutopilot.successLine, Event.close]) ∧
    (env.goto VerifyRefactor.url = none →
      wait_for_selector env VerifyRefactor.readySelector none = none →
      env.screenshot VerifyRefactor.outputPath = none →
      (VerifyRefactor.verify_app_loads env).2 =
        [Event.launch, Event.newPage, Event.goto VerifyRefactor.url,
         Event.waitSelector VerifyRefactor.readySelector none (some "visible"),
         Event.sleep 2000, Event.screenshot VerifyRefactor.outputPath false,
         Event.fileWrite VerifyRefactor.outputPath,
         Event.printLine VerifyRefactor.successLine, Event.close]) ∧
    (∀ p fp, Event.screenshot p fp ∈ (VerifyApp.verify_app env).2 →
      wait_for_selector env VerifyApp.readySelector (some 10000) = none) ∧
    (∀ p fp, Event.screenshot p fp ∈ (VerifyAutopilot.verify_app env).2 →
      wait_for_selector env VerifyAutopilot.readySelector (some 5000) = none) ∧
    (∀ p fp, Event.screenshot p fp ∈ (VerifyRefactor.verify_app_loads env).2 →
      wait_for_selector env VerifyRefactor.readySelector none = none) ∧
    (∀ m, env.goto VerifyApp.url = some m →
      (VerifyApp.verify_app env).2 =
        [Event.launch, Event.newPage, Event.goto VerifyApp.url,
         Event.printLine ("Error: " ++ m), Event.close]) ∧
    (env.goto VerifyAutopilot.url = none →
      env.selectorAppears VerifyAutopilot.readySelector = none →
      (VerifyAutopilot.verify_app env).2 =
        [Event.launch, Event.newPage, Event.printLine "Navigating to app...",
         Event.goto VerifyAutopilot.url,
         Event.waitSelector VerifyAutopilot.readySelector (some 5000) none,
         Event.printLine ("Error: " ++ timeoutMessage 5000), Event.close]) := by
  refine ⟨?_, ?_, ?_, ?_, ?_, ?_, ?_, ?_⟩
  · intro hg hw hs
    simp [VerifyApp.verify_app, VerifyApp.tryBody, hl, hn, hg, hw, hs]
  · intro hg hw hc hs
    simp [VerifyAutopilot.verify_app, VerifyAutopilot.tryBody, hl, hn, hg, hw, hc, hs]
  · intro hg hw hs
    simp [VerifyRefactor.verify_app_loads, VerifyRefactor.tryBody, hl, hn, hg, hw, hs]
  · intro p fp hmem
    rcases hg : env.goto VerifyApp.url with _ | m
    · rcases hw : wait_for_selector env VerifyApp.readySelector (some 10000) with _ | e
      · rfl
      · simp [VerifyApp.verify_app, VerifyApp.tryBody, hl, hn, hg, hw] at hmem
    · simp [VerifyApp.verify_app, VerifyApp.tryBody, hl, hn, hg] at hmem
  · intro p fp hmem
    rcases hg : env.goto VerifyAutopilot.url with _ | m
    · rcases hw : wait_for_selector env VerifyAutopilot.readySelector (some 5000) with _ | e
      · rfl
      · simp [VerifyAutopilot.verify_app, VerifyAutopilot.tryBody, hl, hn, hg, hw] at hmem
    · simp [VerifyAutopilot.verify_app, VerifyAutopilot.tryBody, hl, hn, hg] at hmem
  · intro p fp hmem
    rcases hg : env.goto VerifyRefactor.url with _ | m
    · rcases hw : wait_for_selector env VerifyRefactor.readySelector none with _ | e
      · rfl
      · simp [VerifyRefactor.verify_app_loads, VerifyRefactor.tryBody, hl, hn, hg, hw] at hmem
    · simp [VerifyRefactor.verify_app_loads, VerifyRefactor.tryBody, hl, hn, hg] at hmem
  · intro m hg
    simp [VerifyApp.verify_app, VerifyApp.tryBody, hl, hn, hg]
  · intro hg hsel
    have hw : wait_for_selector env VerifyAutopilot.readySelector (some 5000) =
        some (timeoutMessage 5000) := by
      simp [wait_for_selector, hsel]
    simp [VerifyAutopilot.verify_app, VerifyAutopilot.tryBody, hl, hn, hg, hw]

/-- Witness for C8: the all-success autopilot run follows the full ordered
trace, and on the timed-out environment the autopilot run goes straight
from the failed readiness wait to the error print and close. -/
theorem c8_witness :
    (VerifyAutopilot.verify_app envOk).2 =
      [Event.launch, Event.newPage, Event.printLine "Navigating to app...",
       Event.goto VerifyAutopilot.url,
       Event.waitSelector VerifyAutopilot.readySelector (some 5000) none,
       Event.printLine "Clicking start overlay...",
       Event.click VerifyAutopilot.clickTarget,
       Event.printLine "Waiting for autopilot...", Event.sleep 3000,
       Event.printLine "Taking screenshot...",
       Event.screenshot VerifyAutopilot.outputPath false,
       Event.fileWrite VerifyAutopilot.outputPath,
       Event.printLine VerifyAutopilot.successLine, Event.close] ∧
    (VerifyAutopilot.verify_app envNoSelector).2 =
      [Event.launch, Event.newPage, Event.printLine "Navigating to app...",
       Event.goto VerifyAutopilot.url,
       Event.waitSelector VerifyAutopilot.readySelector (some 5000) none,
       Event.printLine ("Error: " ++ timeoutMessage 5000), Event.close] := by
  have h1 := c8_step_order envOk rfl rfl
  have h2 := c8_step_order envNoSelector rfl rfl
  exact ⟨h1.2.1 rfl (by decide) rfl rfl, h2.2.2.2.2.2.2.2 rfl rfl⟩

/-- The paths `verify_app.py` writes: exactly its output path when every
step up to and including the screenshot call succeeds, nothing otherwise. -/
theorem VerifyApp.app_writes_spec (env : Env) :
    writes (VerifyApp.verify_app env).2 =
      if VerifyApp.preOk env && (env.screenshot VerifyApp.outputPath).isNone
      then [VerifyApp.outputPath] else [] := by
  rcases hl : env.launch with _ | m1
  · rcases hn : env.newPage with _ | m2
    · rcases hg : env.goto VerifyApp.url with _ | m3
      · rcases hw : wait_for_selector env VerifyApp.readySelector (some 10000) with _ | m4
        · rcases hs : env.screenshot VerifyApp.outputPath with _ | m5 <;>
            simp [VerifyApp.verify_app, VerifyApp.tryBody, VerifyApp.preOk, writes,
              hl, hn, hg, hw, hs]
        · simp [VerifyApp.verify_app, VerifyApp.tryBody, VerifyApp.preOk, writes,
            hl, hn, hg, hw]
      · simp [VerifyApp.verify_app, VerifyApp.tryBody, VerifyApp.preOk, writes,
          hl, hn, hg]
    · simp [VerifyApp.verify_app, VerifyApp.preOk, writes, hl, hn]
  · simp [VerifyApp.verify_app, VerifyApp.preOk, writes, hl]

/-- The paths `verify_autopilot.py` writes: exactly its output path when
every step up to and including the screenshot call succeeds, nothing
otherwise. -/
theorem VerifyAutopilot.autopilot_writes_spec (env : Env) :
    writes (VerifyAutopilot.verify_app env).2 =
      if VerifyAutopilot.preOk env && (env.screenshot VerifyAutopilot.outputPath).isNone
      then [VerifyAutopilot.outputPath] else [] := by
  rcases hl : env.launch with _ | m1
  · rcases hn : env.newPage with _ | m2
    · rcases hg : env.goto VerifyAutopilot.url with _ | m3
      · rcases hw : wait_for_selector env VerifyAutopilot.readySelector (some 5000) with _ | m4
        · rcases hc : env.click VerifyAutopilot.clickTarget with _ | m5
          · rcases hs : env.screenshot VerifyAutopilot.outputPath with _ | m6 <;>
              simp [VerifyAutopilot.verify_app, VerifyAutopilot.tryBody,
                VerifyAutopilot.preOk, writes, hl, hn, hg, hw, hc, hs]
          · simp [VerifyAutopilot.verify_app, VerifyAutopilot.tryBody,
              VerifyAutopilot.preOk, writes, hl, hn, hg, hw, hc]
        · simp [VerifyAutopilot.verify_app, VerifyAutopilot.tryBody,
            VerifyAutopilot.preOk, writes, hl, hn, hg, hw]
      · simp [VerifyAutopilot.verify_app, VerifyAutopilot.tryBody,
          VerifyAutopilot.preOk, writes, hl, hn, hg]
    · simp [VerifyAutopilot.verify_app, VerifyAutopilot.preOk, writes, hl, hn]
  · simp [VerifyAutopilot.verify_app, VerifyAutopilot.preOk, writes, hl]

/-- The paths `verify_refactor.py` writes: exactly its output path when
every step up to and including the screenshot call succeeds, nothing
otherwise. -/
theorem VerifyRefactor.refactor_writes_spec (env : Env) :
    writes (VerifyRefactor.verify_app_loads env).2 =
      if VerifyRefactor.preOk env && (env.screenshot VerifyRefactor.outputPath).isNone
      then [VerifyRefactor.outputPath] else [] := by
  rcases hl : env.launch with _ | m1
  · rcases hn : env.newPage with _ | m2
    · rcases hg : env.goto VerifyRefactor.url with _ | m3
      · rcases hw : wait_for_selector env VerifyRefactor.readySelector none with _ | m4
        · rcases hs : env.screenshot VerifyRefactor.outputPath with _ | m5 <;>
            simp [VerifyRefactor.verify_app_loads, VerifyRefactor.tryBody,
              VerifyRefactor.preOk, writes, hl, hn, hg, hw, hs]
        · simp [VerifyRefactor.verify_app_loads, VerifyRefactor.tryBody,
            VerifyRefactor.preOk, writes, hl, hn, hg, hw]
      · simp [VerifyRefactor.verify_app_loads, VerifyRefactor.tryBody,
          VerifyRefactor.preOk, writes, hl, hn, hg]
    · simp [VerifyRefactor.verify_app_loads, VerifyRefactor.preOk, writes, hl, hn]
  · simp [VerifyRefactor.verify_app_loads, VerifyRefactor.preOk, writes, hl]

/-- C9: in every run of each script, any written path is the variant's
single hard-coded output path, and if any step preceding the screenshot
call fails, the run writes no file at all. -/
theorem c9_frame_condition (env : Env) :
    (∀ p, p ∈ writes (VerifyApp.verify_app env).2 → p = VerifyApp.outputPath) ∧
    (∀ p, p ∈ writes (VerifyAutopilot.verify_app env).2 → p = VerifyAutopilot.outputPath) ∧
    (∀ p, p ∈ writes (VerifyRefactor.verify_app_loads env).2 → p = VerifyRefactor.outputPath) ∧
    (VerifyApp.preOk env = false → writes (VerifyApp.verify_app env).2 = []) ∧
    (VerifyAutopilot.preOk env = false → writes (VerifyAutopilot.verify_app env).2 = []) ∧
    (VerifyRefactor.preOk env = false → writes (VerifyRefactor.verify_app_loads env).2 = []) := by
  have s1 := VerifyApp.app_writes_spec env
  have s2 := VerifyAutopilot.autopilot_writes_spec env
  have s3 := VerifyRefactor.refactor_writes_spec env
  refine ⟨?_, ?_, ?_, ?_, ?_, ?_⟩
  · intro p hp
    rw [s1] at hp
    split at hp <;> simp_all
  · intro p hp
    rw [s2] at hp
    split at hp <;> simp_all
  · intro p hp
    rw [s3] at hp
    split at hp <;> simp_all
  · intro h
    rw [s1, h]
    simp
  · intro h
    rw [s2, h]
    simp
  · intro h
    rw [s3, h]
    simp

/-- Witness for C9: with a failing navigation no script writes any file,
and with everything succeeding each script's write is its own output
path. -/
theorem c9_witness :
    writes (VerifyApp.verify_app envGotoFail).2 = [] ∧
    writes (VerifyAutopilot.verify_app envGotoFail).2 = [] ∧
    writes (VerifyRefactor.verify_app_loads envGotoFail).2 = [] ∧
    writes (VerifyApp.verify_app envShotFail).2 = [] := by
  have h := c9_frame_condition envGotoFail
  have h2 := c9_frame_condition envShotFail
  refine ⟨h.2.2.2.1 (by decide), h.2.2.2.2.1 (by decide), h.2.2.2.2.2 (by decide), ?_⟩
  have := VerifyApp.app_writes_spec envShotFail
  rw [this]
  decide

/-- The progress line `Navigating to app...` is not a terminal line of
`verify_autopilot.py`. -/
theorem auto_progress_nav_not_terminal :
    isTerminalLine VerifyAutopilot.successLine "Navigating to app..." = false := by
  decide

/-- The progress line `Clicking start overlay...` is not a terminal line of
`verify_autopilot.py`. -/
theorem auto_progress_click_not_terminal :
    isTerminalLine VerifyAutopilot.successLine "Clicking start overlay..." = false := by
  decide

/-- The progress line `Waiting for autopilot...` is not a terminal line of
`verify_autopilot.py`. -/
theorem auto_progress_wait_not_terminal :
    isTerminalLine VerifyAutopilot.successLine "Waiting for autopilot..." = false := by
  decide

/-- The progress line `Taking screenshot...` is not a terminal line of
`verify_autopilot.py`. -/
theorem auto_progress_taking_not_terminal :
    isTerminalLine VerifyAutopilot.successLine "Taking screenshot..." = false := by
  decide

/-- C10: in every run of each script in which the `try` block is entered,
the terminal console lines are exactly one line, never two: the success
confirmation alone when every step of the block (through the screenshot
call) completed without raising — and the block completes without raising
exactly when all its steps succeed — or the single line
`Error: <exception message>` alone when some step inside the block
raised. -/
theorem c10_exclusive_terminal_lines (env : Env)
    (hl : env.launch = none) (hn : env.newPage = none) :
    ((VerifyApp.tryBody env).1 = none ↔ VerifyApp.stepsOk env = true) ∧
    ((VerifyApp.tryBody env).1 = none →
      terminalLines VerifyApp.successLine (prints (VerifyApp.verify_app env).2) =
        [VerifyApp.successLine]) ∧
    (∀ m, (VerifyApp.tryBody env).1 = some m →
      terminalLines VerifyApp.successLine (prints (VerifyApp.verify_app env).2) =
        ["Error: " ++ m]) ∧
    ((VerifyAutopilot.tryBody env).1 = none ↔ VerifyAutopilot.stepsOk env = true) ∧
    ((VerifyAutopilot.tryBody env).1 = none →
      terminalLines VerifyAutopilot.successLine (prints (VerifyAutopilot.verify_app env).2) =
        [VerifyAutopilot.successLine]) ∧
    (∀ m, (VerifyAutopilot.tryBody env).1 = some m →
      terminalLines VerifyAutopilot.successLine (prints (VerifyAutopilot.verify_app env).2) =
        ["Error: " ++ m]) ∧
    ((VerifyRefactor.tryBody env).1 = none ↔ VerifyRefactor.stepsOk env = true) ∧
    ((VerifyRefactor.tryBody env).1 = none →
      terminalLines VerifyRefactor.successLine
        (prints (VerifyRefactor.verify_app_loads env).2) = [VerifyRefactor.successLine]) ∧
    (∀ m, (VerifyRefactor.tryBody env).1 = some m →
      terminalLines VerifyRefactor.successLine
        (prints (VerifyRefactor.verify_app_loads env).2) = ["Error: " ++ m]) := by
  refine ⟨?_, ?_, ?_, ?_, ?_, ?_, ?_, ?_, ?_⟩
  · rcases hg : env.goto VerifyApp.url with _ | m
    · rcases hw : wait_for_selector env VerifyApp.readySelector (some 10000) with _ | e
      · rcases hs : env.screenshot VerifyApp.outputPath with _ | e2 <;>
          simp [VerifyApp.tryBody, VerifyApp.stepsOk, hg, hw, hs]
      · simp [VerifyApp.tryBody, VerifyApp.stepsOk, hg, hw]
    · simp [VerifyApp.tryBody, VerifyApp.stepsOk, hg]
  · intro h
    rcases hg : env.goto VerifyApp.url with _ | m
    · rcases hw : wait_for_selector env VerifyApp.readySelector (some 10000) with _ | e
      · rcases hs : env.screenshot VerifyApp.outputPath with _ | e2
        · have htr : (VerifyApp.verify_app env).2 =
              [Event.launch, Event.newPage, Event.goto VerifyApp.url,
               Event.waitSelector VerifyApp.readySelector (some 10000) none,
               Event.screenshot VerifyApp.outputPath false,
               Event.fileWrite VerifyApp.outputPath,
               Event.printLine VerifyApp.successLine, Event.close] := by
            simp [VerifyApp.verify_app, VerifyApp.tryBody, hl, hn, hg, hw, hs]
          rw [htr]
          decide
        · simp [VerifyApp.tryBody, hg, hw, hs] at h
      · simp [VerifyApp.tryBody, hg, hw] at h
    · simp [VerifyApp.tryBody, hg] at h
  · intro m h
    rcases hg : env.goto VerifyApp.url with _ | m3
    · rcases hw : wait_for_selector env VerifyApp.readySelector (some 10000) with _ | e
      · rcases hs : env.screenshot VerifyApp.outputPath with _ | e2
        · simp [VerifyApp.tryBody, hg, hw, hs] at h
        · simp [VerifyApp.tryBody, hg, hw, hs] at h
          subst h
          simp [VerifyApp.verify_app, VerifyApp.tryBody, prints, terminalLines,
            List.filter, hl, hn, hg, hw, hs, isTerminalLine_error]
      · simp [VerifyApp.tryBody, hg, hw] at h
        subst h
        simp [VerifyApp.verify_app, VerifyApp.tryBody, prints, terminalLines,
          List.filter, hl, hn, hg, hw, isTerminalLine_error]
    · simp [VerifyApp.tryBody, hg] at h
      subst h
      simp [VerifyApp.verify_app, VerifyApp.tryBody, prints, terminalLines,
        List.filter, hl, hn, hg, isTerminalLine_error]
  · rcases hg : env.goto VerifyAutopilot.url with _ | m
    · rcases hw : wait_for_selector env VerifyAutopilot.readySelector (some 5000) with _ | e
      · rcases hc : env.click VerifyAutopilot.clickTarget with _ | e1
        · rcases hs : env.screenshot VerifyAutopilot.outputPath with _ | e2 <;>
            simp [VerifyAutopilot.tryBody, VerifyAutopilot.stepsOk, hg, hw, hc, hs]
        · simp [VerifyAutopilot.tryBody, VerifyAutopilot.stepsOk, hg, hw, hc]
      · simp [VerifyAutopilot.tryBody, VerifyAutopilot.stepsOk, hg, hw]
    · simp [VerifyAutopilot.tryBody, VerifyAutopilot.stepsOk, hg]
  · intro h
    rcases hg : env.goto VerifyAutopilot.url with _ | m
    · rcases hw : wait_for_selector env VerifyAutopilot.readySelector (some 5000) with _ | e
      · rcases hc : env.click VerifyAutopilot.clickTarget with _ | e1
        · rcases hs : env.screenshot VerifyAutopilot.outputPath with _ | e2
          · have htr : (VerifyAutopilot.verify_app env).2 =
                [Event.launch, Event.newPage, Event.printLine "Navigating to app...",
                 Event.goto VerifyAutopilot.url,
                 Event.waitSelector VerifyAutopilot.readySelector (some 5000) none,
                 Event.printLine "Clicking start overlay...",
                 Event.click VerifyAutopilot.clickTarget,
                 Event.printLine "Waiting for autopilot...", Event.sleep 3000,
                 Event.printLine "Taking screenshot...",
                 Event.screenshot VerifyAutopilot.outputPath false,
                 Event.fileWrite VerifyAutopilot.outputPath,
                 Event.printLine VerifyAutopilot.successLine, Event.close] := by
              simp [VerifyAutopilot.verify_app, VerifyAutopilot.tryBody,
                hl, hn, hg, hw, hc, hs]
            rw [htr]
            decide
          · simp [VerifyAutopilot.tryBody, hg, hw, hc, hs] at h
        · simp [VerifyAutopilot.tryBody, hg, hw, hc] at h
      · simp [VerifyAutopilot.tryBody, hg, hw] at h
    · simp [VerifyAutopilot.tryBody, hg] at h
  · intro m h
    rcases hg : env.goto VerifyAutopilot.url with _ | m3
    · rcases hw : wait_for_selector env VerifyAutopilot.readySelector (some 5000) with _ | e
      · rcases hc : env.click VerifyAutopilot.clickTarget with _ | e1
        · rcases hs : env.screenshot VerifyAutopilot.outputPath with _ | e2
          · simp [VerifyAutopilot.tryBody, hg, hw, hc, hs] at h
          · simp [VerifyAutopilot.tryBody, hg, hw, hc, hs] at h
            subst h
            simp [VerifyAutopilot.verify_app, VerifyAutopilot.tryBody, prints,
              terminalLines, List.filter, hl, hn, hg, hw, hc, hs,
              isTerminalLine_error, auto_progress_nav_not_terminal,
              auto_progress_click_not_terminal, auto_progress_wait_not_terminal,
              auto_progress_taking_not_terminal]
        · simp [VerifyAutopilot.tryBody, hg, hw, hc] at h
          subst h
          simp [VerifyAutopilot.verify_app, VerifyAutopilot.tryBody, prints,
            terminalLines, List.filter, hl, hn, hg, hw, hc,
            isTerminalLine_error, auto_progress_nav_not_terminal,
            auto_progress_click_not_terminal]
      · simp [VerifyAutopilot.tryBody, hg, hw] at h
        subst h
        simp [VerifyAutopilot.verify_app, VerifyAutopilot.tryBody, prints,
          terminalLines, List.filter, hl, hn, hg, hw,
          isTerminalLine_error, auto_progress_nav_not_terminal]
    · simp [VerifyAutopilot.tryBody, hg] at h
      subst h
      simp [VerifyAutopilot.verify_app, VerifyAutopilot.tryBody, prints,
        terminalLines, List.filter, hl, hn, hg,
        isTerminalLine_error, auto_progress_nav_not_terminal]
  · rcases hg : env.goto VerifyRefactor.url with _ | m
    · rcases hw : wait_for_selector env VerifyRefactor.readySelector none with _ | e
      · rcases hs : env.screenshot VerifyRefactor.outputPath with _ | e2 <;>
          simp [VerifyRefactor.tryBody, VerifyRefactor.stepsOk, hg, hw, hs]
      · simp [VerifyRefactor.tryBody, VerifyRefactor.stepsOk, hg, hw]
    · simp [VerifyRefactor.tryBody, VerifyRefactor.stepsOk, hg]
  · intro h
    rcases hg : env.goto VerifyRefactor.url with _ | m
    · rcases hw : wait_for_selector env VerifyRefactor.readySelector none with _ | e
      · rcases hs : env.screenshot VerifyRefactor.outputPath with _ | e2
        · have htr : (VerifyRefactor.verify_app_loads env).2 =
              [Event.launch, Event.newPage, Event.goto VerifyRefactor.url,
               Event.waitSelector VerifyRefactor.readySelector none (some "visible"),
               Event.sleep 2000, Event.screenshot VerifyRefactor.outputPath false,
               Event.fileWrite VerifyRefactor.outputPath,
               Event.printLine VerifyRefactor.successLine, Event.close] := by
            simp [VerifyRefactor.verify_app_loads, VerifyRefactor.tryBody,
              hl, hn, hg, hw, hs]
          rw [htr]
          decide
        · simp [VerifyRefactor.tryBody, hg, hw, hs] at h
      · simp [VerifyRefactor.tryBody, hg, hw] at h
    · simp [VerifyRefactor.tryBody, hg] at h
  · intro m h
    rcases hg : env.goto VerifyRefactor.url with _ | m3
    · rcases hw : wait_for_selector env VerifyRefactor.readySelector none with _ | e
      · rcases hs : env.screenshot VerifyRefactor.outputPath with _ | e2
        · simp [VerifyRefactor.tryBody, hg, hw, hs] at h
        · simp [VerifyRefactor.tryBody, hg, hw, hs] at h
          subst h
          simp [VerifyRefactor.verify_app_loads, VerifyRefactor.tryBody, prints,
            terminalLines, List.filter, hl, hn, hg, hw, hs, isTerminalLine_error]
      · simp [VerifyRefactor.tryBody, hg, hw] at h
        subst h
        simp [VerifyRefactor.verify_app_loads, VerifyRefactor.tryBody, prints,
          terminalLines, List.filter, hl, hn, hg, hw, isTerminalLine_error]
    · simp [VerifyRefactor.tryBody, hg] at h
      subst h
      simp [VerifyRefactor.verify_app_loads, VerifyRefactor.tryBody, prints,
        terminalLines, List.filter, hl, hn, hg, isTerminalLine_error]

/-- Witness for C10: on the all-success environment each run's terminal
output is exactly its success line; on a failed navigation, `verify_app`'s
terminal output is exactly the error line carrying the exception's
message. -/
theorem c10_witness :
    terminalLines VerifyApp.successLine (prints (VerifyApp.verify_app envOk).2) =
      [VerifyApp.successLine] ∧
    terminalLines VerifyAutopilot.successLine (prints (VerifyAutopilot.verify_app envOk).2) =
      [VerifyAutopilot.successLine] ∧
    terminalLines VerifyRefactor.successLine
      (prints (VerifyRefactor.verify_app_loads envOk).2) = [VerifyRefactor.successLine] ∧
    terminalLines VerifyApp.successLine (prints (VerifyApp.verify_app envGotoFail).2) =
      ["Error: " ++ "net::ERR_CONNECTION_REFUSED"] := by
  have h1 := c10_exclusive_terminal_lines envOk rfl rfl
  have h2 := c10_exclusive_terminal_lines envGotoFail rfl rfl
  exact ⟨h1.2.1 (by decide), h1.2.2.2.2.1 (by decide), h1.2.2.2.2.2.2.2.1 (by decide),
    h2.2.2.1 "net::ERR_CONNECTION_REFUSED" (by decide)⟩
